import Mathlib

/-
Shallow embedding of `dota2_hero.py`, a script that fetches a hero listing
page plus a JSON feed, merges them into `Hero` records, filters them, and
keeps a two-tier cache (in-memory globals plus an on-disk snapshot).

Modelling conventions:
* Python strings are Lean `String`s; Python `s in t` on strings is an
  infix (substring) test on the character lists.
* The parsed HTML document (`BeautifulSoup` tree) is abstracted to the
  shape the script actually queries: a `Page` holding the head's comment
  strings in document order and the layout column `div`s in page order,
  each column holding its `class` list and the `<a>` fragments inside it
  (`tag.parent.parent` of a fragment is its enclosing column).
* Network access is an explicit environment `Env` mapping a language tag
  to the page / feed that a fetch for that language returns; each cache
  operation also returns how many fetches it issued, so that "performs no
  fetch" is observable.
* The JSON feed is a key-ordered association list (Python dicts preserve
  insertion order).
* File I/O is abstracted: a snapshot file is either absent/unreadable
  (`none`) or holds the parsed value (`some _`); `json.dumps`/`loads` and
  `prettify`/re-parse are treated as exact inverses (serialisation
  mechanics are an external collaborator per the design).
* Python exceptions become explicit result constructors.
-/

/-- Python's `str.split(sep)` for a one-character separator, over the
character list of the string. -/
def splitChar (c : Char) : List Char → List (List Char)
  | [] => [[]]
  | x :: xs =>
    if x == c then [] :: splitChar c xs
    else
      match splitChar c xs with
      | [] => [[x]]
      | y :: ys => (x :: y) :: ys

/-- One hero record, mirroring `class Hero` (`__init__` field order:
name, icon, attr, faction, bio, roles, attack, key).  `attr` is an
`Option` because `get_hero_info` can return Python `None` for it. -/
structure Hero where
  name : String
  icon : String
  attr : Option String
  faction : String
  bio : String
  roles : List String
  attack : String
  key : String
deriving DecidableEq, Repr

/-- One entry of the JSON feed (`heropickerdata`): the fields the script
reads (`name`, `bio`, `roles_l`, `atk_l`). -/
structure FeedEntry where
  name : String
  bio : String
  roles_l : List String
  atk_l : String
deriving DecidableEq, Repr

/-- The JSON feed: hero key ↦ entry, in dict insertion order. -/
abbrev Feed := List (String × FeedEntry)

/-- An `<a>` fragment of the document: its tag name, optional `id`
attribute and the `src` of an embedded `<img>` (if any). -/
structure HTag where
  name : String
  id : Option String
  img : Option String
deriving DecidableEq, Repr

/-- A layout column `div` (what `fragment.parent.parent` resolves to):
its `class` attribute (a list of class names) and the fragments under
it, in page order. -/
structure Column where
  cls : List String
  tags : List HTag
deriving DecidableEq, Repr

/-- The parsed document, reduced to what the script queries: the head's
comment strings (document order) and the layout columns (page order). -/
structure Page where
  headComments : List String
  columns : List Column
deriving DecidableEq, Repr

/-! ## Filter engine (`find_heroes`, `find_first_hero`) -/

/-- `match_name` from `find_heroes`: empty criterion matches everything,
otherwise exact (case-sensitive) equality with the record's `name` or
`key`. -/
def match_name (name : String) (test : Hero) : Bool :=
  name == "" || test.name == name || test.key == name

/-- `match_attr` from `find_heroes`: `None` criterion matches everything,
otherwise equality with the record's `attr`. -/
def match_attr (attrib : Option String) (test : Hero) : Bool :=
  attrib.isNone || test.attr == attrib

/-- `match_role` from `find_heroes`: `None` criterion matches everything,
otherwise `frozenset(test.roles) ⊇ frozenset(role)`, i.e. every requested
role occurs among the record's roles. -/
def match_role (role : Option (List String)) (test : Hero) : Bool :=
  match role with
  | none => true
  | some rs => rs.all (fun r => test.roles.contains r)

/-- `match_attack` from `find_heroes`: `None` criterion matches
everything, otherwise equality with the record's `attack`. -/
def match_attack (attack : Option String) (test : Hero) : Bool :=
  match attack with
  | none => true
  | some a => test.attack == a

/-- `find_heroes`: the four chained `filter` passes of the source
(innermost `match_role`, then `match_attack`, `match_attr`,
`match_name`). -/
def find_heroes (hlist : List Hero) (name : String) (attrib : Option String)
    (role : Option (List String)) (attack : Option String) : List Hero :=
  ((((hlist.filter (match_role role)).filter (match_attack attack)).filter
      (match_attr attrib)).filter (match_name name))

/-- `find_first_hero`: first element of `find_heroes`, or `None`. -/
def find_first_hero (hlist : List Hero) (name : String) (attrib : Option String)
    (role : Option (List String)) (attack : Option String) : Option Hero :=
  match find_heroes hlist name attrib role attack with
  | [] => none
  | h :: _ => some h

/-- One record satisfies ALL supplied criteria — the conjunction the
spec's filter-engine contract describes (name empty or equal to the
record's name or key; attribute/attack unspecified or equal; requested
role set a subset of the record's role set). -/
def spec_match (name : String) (attrib : Option String)
    (role : Option (List String)) (attack : Option String) (test : Hero) : Bool :=
  match_name name test && match_attr attrib test
    && match_role role test && match_attack attack test

/-- Helper: the four chained filters collapse to one filter by the
conjunction of the four matchers. -/
theorem find_heroes_eq_filter (hlist : List Hero) (name : String)
    (attrib : Option String) (role : Option (List String)) (attack : Option String) :
    find_heroes hlist name attrib role attack
      = hlist.filter (spec_match name attrib role attack) := by
  unfold find_heroes
  rw [List.filter_filter, List.filter_filter, List.filter_filter]
  apply List.filter_congr
  intro a _
  unfold spec_match
  cases match_name name a <;> cases match_attr attrib a <;>
    cases match_role role a <;> cases match_attack attack a <;> rfl

/-- Helper: the head of a filtered list is the first element satisfying
the predicate. -/
theorem head_of_filter {α : Type} (p : α → Bool) (l : List α) :
    (l.filter p).head? = l.find? p := by
  induction l with
  | nil => rfl
  | cons x xs ih =>
    rw [List.filter_cons, List.find?_cons]
    cases hx : p x <;> simp [ih]

/-- C1: `find_heroes` returns exactly the records satisfying ALL supplied
criteria, in input order (it equals one order-preserving filter by the
conjunction of the criteria: empty/unspecified name matches all, else
case-sensitive equality with name or key; attribute/attack unspecified or
equal; requested roles a subset of the record's roles); with no criteria
supplied the input collection is returned unchanged. -/
theorem find_heroes_filters_conjunction (hlist : List Hero) (name : String)
    (attrib : Option String) (role : Option (List String)) (attack : Option String) :
    find_heroes hlist name attrib role attack
        = hlist.filter (spec_match name attrib role attack)
      ∧ find_heroes hlist "" none none none = hlist := by
  refine ⟨find_heroes_eq_filter hlist name attrib role attack, ?_⟩
  rw [find_heroes_eq_filter]
  apply List.filter_eq_self.mpr
  intro a _
  rfl

/-- C7: `find_first_hero` returns the first record (in input order)
satisfying the criteria, and the not-found sentinel `none` when no record
matches — it is a total function equal to `List.find?` of the criteria
conjunction, so "no match" is a normal return value, not a failure. -/
theorem find_first_hero_first_match (hlist : List Hero) (name : String)
    (attrib : Option String) (role : Option (List String)) (attack : Option String) :
    find_first_hero hlist name attrib role attack
      = hlist.find? (spec_match name attrib role attack) := by
  have hh : find_first_hero hlist name attrib role attack
      = (find_heroes hlist name attrib role attack).head? := by
    unfold find_first_hero
    cases find_heroes hlist name attrib role attack <;> rfl
  rw [hh, find_heroes_eq_filter]
  exact head_of_filter (spec_match name attrib role attack) hlist

/-! ## Merger (`get_hero_info`, `get_all_heroes`) -/

/-- Python's `needle in haystack` on strings: the needle occurs as a
contiguous substring, tested over character lists. -/
def py_in (needle : List Char) : List Char → Bool
  | [] => needle.isEmpty
  | x :: xs => needle.isPrefixOf (x :: xs) || py_in needle xs

/-- The `matches_hero` predicate inside `get_hero_info`: an `<a>` tag
with an `id` attribute whose value contains the hero key as a substring
(Python `heroName in tag["id"]`). -/
def matches_hero (heroName : String) (t : HTag) : Bool :=
  t.name == "a" &&
    match t.id with
    | some i => py_in heroName.data i.data
    | none => false

/-- `page.find_all(matches_hero)[0]` seen through the column structure:
the first fragment in page order matching the key, together with its
enclosing column (`tag.parent.parent`); `none` when no fragment matches. -/
def find_hero_tag (page : Page) (heroName : String) : Option (Column × HTag) :=
  page.columns.findSome? (fun c =>
    (c.tags.find? (matches_hero heroName)).map (fun t => (c, t)))

/-- BeautifulSoup class matching for `find("div", <class list>)`: a list
filter matches a tag when some filter entry occurs among the tag's
classes. -/
def class_matches (query cls : List String) : Bool :=
  query.any (fun q => cls.contains q)

/-- `page.find("div", query)`: the first column in page order whose
class attribute matches the query. -/
def find_div_by_class (page : Page) (query : List String) : Option Column :=
  page.columns.find? (fun c => class_matches query c.cls)

/-- The attribute derivation of `get_hero_info` (the `if`/`elif` chain on
the enclosing column's class list); `none` models Python's `None` for an
unrecognised column. -/
def column_attribute (col : Column) : Option String :=
  if col.cls.contains "heroColLeft" then some "Strength"
  else if col.cls.contains "heroColMiddle" then some "Agility"
  else if col.cls.contains "heroColRight" then some "Intelligence"
  else none

/-- Python exceptions the merger can raise: `lookupError` is the
`IndexError` (a `LookupError` subclass) from indexing `[0]` into an empty
`find_all` result; `typeError` is subscripting the missing `<img>`. -/
inductive PyError where
  | lookupError
  | typeError
deriving DecidableEq, Repr

/-- `get_hero_info` on an already-fetched page: locate the first matching
fragment, read the icon, derive the attribute from the enclosing column's
class and the faction from whether that column is the first one found by
a class query over the whole page. -/
def get_hero_info (page : Page) (heroName : String) :
    Except PyError (String × Option String × String) :=
  match find_hero_tag page heroName with
  | none => .error .lookupError
  | some (col, tag) =>
    match tag.img with
    | none => .error .typeError
    | some src =>
      let faction :=
        if find_div_by_class page col.cls = some col then "Radiant" else "Dire"
      .ok (src, column_attribute col, faction)

/-- The `get_all_heroes` generator, run to completion: the records
yielded before the first failing key, paired with the error that stopped
the iteration (`none` when every key succeeded). -/
def get_all_heroes_list (page : Page) : Feed → List Hero × Option PyError
  | [] => ([], none)
  | (key, H) :: rest =>
    match get_hero_info page key with
    | .error e => ([], some e)
    | .ok (icon, attrib, faction) =>
      let r := get_all_heroes_list page rest
      (Hero.mk H.name icon attrib faction H.bio H.roles_l H.atk_l key :: r.1, r.2)

/-- Helper: appending a failing key after keys that all succeed keeps the
earlier records and stops with the lookup error. -/
theorem get_all_heroes_list_append_error (page : Page) (k : String) (e : FeedEntry)
    (rest : Feed) (hk : find_hero_tag page k = none) :
    ∀ pre : Feed, (∀ x ∈ pre, ∃ v, get_hero_info page x.1 = .ok v) →
      get_all_heroes_list page (pre ++ (k, e) :: rest)
        = ((get_all_heroes_list page pre).1, some PyError.lookupError) := by
  intro pre
  induction pre with
  | nil =>
    intro _
    simp [get_all_heroes_list, get_hero_info, hk]
  | cons x pre' ih =>
    intro hpre
    obtain ⟨kx, ex⟩ := x
    obtain ⟨v, hv⟩ := hpre (kx, ex) (List.mem_cons_self _ pre')
    obtain ⟨icon, av, fac⟩ := v
    have ih' := ih (fun y hy => hpre y (List.mem_cons_of_mem _ hy))
    simp only [List.cons_append, get_all_heroes_list, hv, List.append_eq, ih']

/-- Fixture: the Axe fragment in a left (Strength) column of the first
section, the Luna fragment in a middle (Agility) column. -/
def axeTag : HTag :=
  { name := "a", id := some "link_npc_dota_hero_axe", img := some "axe.png" }

def lunaTag : HTag :=
  { name := "a", id := some "link_npc_dota_hero_luna", img := some "luna.png" }

def colLeftR : Column := { cls := ["heroColLeft"], tags := [axeTag] }

def colMidR : Column := { cls := ["heroColMiddle"], tags := [lunaTag] }

def samplePage : Page := { headComments := [], columns := [colLeftR, colMidR] }

def axeEntry : FeedEntry :=
  { name := "Axe", bio := "axe bio", roles_l := ["Carry", "Durable"], atk_l := "Melee" }

def zzzEntry : FeedEntry :=
  { name := "Zzz", bio := "none", roles_l := [], atk_l := "Melee" }

/-- C6: when the first fragment matching a hero key exists (and carries an
icon), `get_hero_info` succeeds with that icon; the primary attribute is
derived from which recognised layout column class encloses the fragment
(`heroColLeft` → Strength, else `heroColMiddle` → Agility, else
`heroColRight` → Intelligence, none of the three → unset), and the faction
is Radiant exactly when the enclosing column is the first column in page
order matched by a class query for the enclosing column's class, Dire
otherwise. -/
theorem get_hero_info_column_attribute_faction (page : Page) (heroName : String)
    (col : Column) (tag : HTag) (src : String)
    (hfind : find_hero_tag page heroName = some (col, tag))
    (himg : tag.img = some src) :
    get_hero_info page heroName
        = .ok (src, column_attribute col,
            if find_div_by_class page col.cls = some col then "Radiant" else "Dire")
      ∧ (col.cls.contains "heroColLeft" = true → column_attribute col = some "Strength")
      ∧ (col.cls.contains "heroColLeft" = false → col.cls.contains "heroColMiddle" = true →
          column_attribute col = some "Agility")
      ∧ (col.cls.contains "heroColLeft" = false → col.cls.contains "heroColMiddle" = false →
          col.cls.contains "heroColRight" = true → column_attribute col = some "Intelligence")
      ∧ (col.cls.contains "heroColLeft" = false → col.cls.contains "heroColMiddle" = false →
          col.cls.contains "heroColRight" = false → column_attribute col = none) := by
  refine ⟨?_, ?_, ?_, ?_, ?_⟩
  · simp [get_hero_info, hfind, himg]
  · intro h1
    unfold column_attribute
    rw [h1]
    simp
  · intro h1 h2
    unfold column_attribute
    rw [h1, h2]
    simp
  · intro h1 h2 h3
    unfold column_attribute
    rw [h1, h2, h3]
    simp
  · intro h1 h2 h3
    unfold column_attribute
    rw [h1, h2, h3]
    simp

/-- Witness for C6 at the Axe fixture: the fragment sits in the left
column of the first section, so the record comes out Strength/Radiant. -/
theorem get_hero_info_column_attribute_faction_witness :
    (find_hero_tag samplePage "npc_dota_hero_axe" = some (colLeftR, axeTag)
      ∧ axeTag.img = some "axe.png")
    ∧ (get_hero_info samplePage "npc_dota_hero_axe"
          = .ok ("axe.png", column_attribute colLeftR,
              if find_div_by_class samplePage colLeftR.cls = some colLeftR
              then "Radiant" else "Dire")
        ∧ (colLeftR.cls.contains "heroColLeft" = true →
            column_attribute colLeftR = some "Strength")
        ∧ (colLeftR.cls.contains "heroColLeft" = false →
            colLeftR.cls.contains "heroColMiddle" = true →
            column_attribute colLeftR = some "Agility")
        ∧ (colLeftR.cls.contains "heroColLeft" = false →
            colLeftR.cls.contains "heroColMiddle" = false →
            colLeftR.cls.contains "heroColRight" = true →
            column_attribute colLeftR = some "Intelligence")
        ∧ (colLeftR.cls.contains "heroColLeft" = false →
            colLeftR.cls.contains "heroColMiddle" = false →
            colLeftR.cls.contains "heroColRight" = false →
            column_attribute colLeftR = none)) :=
  ⟨⟨by decide, by decide⟩,
    get_hero_info_column_attribute_faction samplePage "npc_dota_hero_axe"
      colLeftR axeTag "axe.png" (by decide) (by decide)⟩

/-- C8: a hero key with no matching document fragment makes
`get_hero_info` fail with the lookup error (Python raises an
`IndexError`, a `LookupError` subclass) rather than return a record, and
the `get_all_heroes` iteration reaching that key stops with that error
while the records already yielded for the earlier keys stand. -/
theorem missing_fragment_raises_lookup_error (page : Page) (pre : Feed)
    (k : String) (e : FeedEntry) (rest : Feed)
    (hpre : ∀ x ∈ pre, ∃ v, get_hero_info page x.1 = .ok v)
    (hk : find_hero_tag page k = none) :
    get_hero_info page k = .error .lookupError
      ∧ get_all_heroes_list page (pre ++ (k, e) :: rest)
          = ((get_all_heroes_list page pre).1, some PyError.lookupError) := by
  constructor
  · simp [get_hero_info, hk]
  · exact get_all_heroes_list_append_error page k e rest hk pre hpre

/-- Witness for C8: Axe resolves, the unknown key right after it does
not; iteration keeps the Axe record and stops with the lookup error. -/
theorem missing_fragment_raises_lookup_error_witness :
    (find_hero_tag samplePage "npc_dota_hero_zzz" = none)
    ∧ (get_hero_info samplePage "npc_dota_hero_zzz" = .error .lookupError
      ∧ get_all_heroes_list samplePage
            ([("npc_dota_hero_axe", axeEntry)] ++ ("npc_dota_hero_zzz", zzzEntry) :: [])
          = ((get_all_heroes_list samplePage [("npc_dota_hero_axe", axeEntry)]).1,
              some PyError.lookupError)) :=
  ⟨by decide,
    missing_fragment_raises_lookup_error samplePage [("npc_dota_hero_axe", axeEntry)]
      "npc_dota_hero_zzz" zzzEntry []
      (by
        intro x hx
        rw [List.mem_singleton] at hx
        subst hx
        exact ⟨("axe.png", some "Strength", "Radiant"), rfl⟩)
      (by decide)⟩

/-! ## Document/Feed cache (`get_web_page`, `get_json_list`, `set_language`) -/

/-- The three module-level globals (`_cached_language`,
`_cached_bs_page`, `_cached_json`) as one explicit state. -/
structure CacheState where
  language : String
  page : Option Page
  json : Option Feed
deriving DecidableEq, Repr

/-- The network collaborator: what a fetch for a given language query
parameter returns for the heroes page and for the JSON feed. -/
structure Env where
  pageFor : String → Page
  feedFor : String → Feed

/-- A cache with nothing loaded and the default (empty) language. -/
def fresh_cache : CacheState := { language := "", page := none, json := none }

/-- `get_web_page(lang=...)`: refetch iff (`lang` non-empty and different
from the cached language) or no page is cached; the cached language tag is
NOT updated.  Returns the page, the new state and the number of network
fetches issued. -/
def get_web_page (env : Env) (lang : String) (st : CacheState) :
    Page × CacheState × Nat :=
  match st.page with
  | none =>
    let p := env.pageFor lang
    (p, { st with page := some p }, 1)
  | some p0 =>
    if lang != "" && st.language != lang then
      let p := env.pageFor lang
      (p, { st with page := some p }, 1)
    else
      (p0, st, 0)

/-- `get_json_list(lang=...)`: same refetch condition as `get_web_page`,
for the feed. -/
def get_json_list (env : Env) (lang : String) (st : CacheState) :
    Feed × CacheState × Nat :=
  match st.json with
  | none =>
    let j := env.feedFor lang
    (j, { st with json := some j }, 1)
  | some j0 =>
    if lang != "" && st.language != lang then
      let j := env.feedFor lang
      (j, { st with json := some j }, 1)
    else
      (j0, st, 0)

/-- `set_language(lang)`: when the requested language differs, first
overwrite `_cached_language`, then call `get_web_page(lang=lang)` and
`get_json_list(lang=lang)`.  Returns the new state and the number of
fetches issued. -/
def set_language (env : Env) (lang : String) (st : CacheState) : CacheState × Nat :=
  if st.language != lang then
    let st1 : CacheState := { st with language := lang }
    let rp := get_web_page env lang st1
    let rj := get_json_list env lang rp.2.1
    (rj.2.1, rp.2.2 + rj.2.2)
  else
    (st, 0)

/-- The spec's cache invariant: a non-null cached document or feed is the
one a fetch under the currently recorded language returns. -/
def cache_coherent (env : Env) (st : CacheState) : Prop :=
  (∀ p, st.page = some p → p = env.pageFor st.language)
    ∧ (∀ j, st.json = some j → j = env.feedFor st.language)

/-- Fixture environment: the default language serves `pageA`/`feedA`,
any other language serves `pageB`/`feedB` (visibly different values). -/
def pageA : Page := { headComments := [], columns := [] }

def pageB : Page := { headComments := ["translated"], columns := [] }

def feedA : Feed := []

def feedB : Feed := [("npc_dota_hero_axe", axeEntry)]

def envAB : Env :=
  { pageFor := fun l => if l == "" then pageA else pageB,
    feedFor := fun l => if l == "" then feedA else feedB }

def stAB : CacheState := { language := "", page := some pageA, json := some feedA }

/-- C2 (code bug): starting from a populated cache in the default
language, `set_language "fr"` issues zero fetches and keeps the stale
page and feed — only the language tag changes — even though a fetch for
"fr" would return different content.  The docstring promises a cache
reload whenever the language differs, but the code overwrites
`_cached_language` before calling the getters, so their "language
differs" test is already false. -/
theorem set_language_skips_refetch :
    set_language envAB "fr" stAB
        = ({ language := "fr", page := some pageA, json := some feedA }, 0)
      ∧ envAB.pageFor "fr" ≠ pageA ∧ envAB.feedFor "fr" ≠ feedA := by
  refine ⟨rfl, ?_, ?_⟩ <;> decide

/-- C5 (code bug): the coherence invariant does not survive the public
cache operations: from a coherent fresh cache, `get_web_page` with an
explicit language caches the page fetched for "fr" while the recorded
cache language stays "", so the cached document is not the one for the
recorded language. -/
theorem get_web_page_breaks_language_coherence :
    cache_coherent envAB fresh_cache
      ∧ (get_web_page envAB "fr" fresh_cache).2.1
          = { language := "", page := some pageB, json := none }
      ∧ ¬ cache_coherent envAB (get_web_page envAB "fr" fresh_cache).2.1 := by
  have hstate : (get_web_page envAB "fr" fresh_cache).2.1
      = { language := "", page := some pageB, json := none } := rfl
  refine ⟨⟨?_, ?_⟩, hstate, ?_⟩
  · intro p hp
    simp [fresh_cache] at hp
  · intro j hj
    simp [fresh_cache] at hj
  · intro hcoh
    rw [hstate] at hcoh
    have hbad := hcoh.1 pageB rfl
    revert hbad
    decide

/-! ## Disk snapshot serializer (`write_disk_cache`, `read_disk_cache`) -/

/-- The comment predicate of `read_disk_cache`:
`t.string[:9] == "LANGUAGE="`. -/
def is_language_comment (c : String) : Bool :=
  c.data.take 9 == "LANGUAGE=".data

/-- The language extraction of `read_disk_cache`:
`l.string.split('=')[1]`. -/
def comment_language (c : String) : String :=
  String.mk ((splitChar '=' c.data).getD 1 [])

/-- What `write_disk_cache` produces: the updated cache state (the cached
page now carries the appended marker comment), the two file contents, and
the number of fetches issued while materialising them. -/
structure WriteResult where
  state : CacheState
  feedFile : Feed
  pageFile : Page
  fetches : Nat

/-- `write_disk_cache`: materialise the feed and page through the cache
getters, append a `LANGUAGE=<tag>` comment to the (shared, in-memory)
page's head, then serialise both.  File-open failures are out of scope
(the paths are assumed writable). -/
def write_disk_cache (env : Env) (st : CacheState) : WriteResult :=
  let rj := get_json_list env "" st
  let rp := get_web_page env "" rj.2.1
  let p' : Page :=
    { rp.1 with headComments := rp.1.headComments ++ ["LANGUAGE=" ++ rp.2.1.language] }
  { state := { rp.2.1 with page := some p' },
    feedFile := rj.1,
    pageFile := p',
    fetches := rj.2.2 + rp.2.2 }

/-- How a `read_disk_cache` call ends: normally, with the caught
`IOError` (the printed "Could not load from disk" fallback), or with an
uncaught error (the `AttributeError` from `l.string` when no language
comment was found). -/
inductive ReadResult where
  | ok
  | ioError
  | uncaughtError
deriving DecidableEq, Repr

/-- `read_disk_cache`: the language global is reset to `""` before the
`try` block; when both files are readable the feed and page globals are
replaced, then the first `LANGUAGE=` comment determines the language —
its absence is the uncaught-error path, with the replacements already
done.  A missing/unreadable file is the caught `IOError` path. -/
def read_disk_cache (jsfile : Option Feed) (webfile : Option Page)
    (st : CacheState) : CacheState × ReadResult :=
  let st0 : CacheState := { st with language := "" }
  match jsfile, webfile with
  | some j, some p =>
    match p.headComments.find? is_language_comment with
    | some c =>
      ({ st0 with json := some j, page := some p, language := comment_language c }, .ok)
    | none =>
      ({ st0 with json := some j, page := some p }, .uncaughtError)
  | _, _ => (st0, .ioError)

/-- The cache state after one `write_disk_cache` call. -/
def save_state (env : Env) (st : CacheState) : CacheState :=
  (write_disk_cache env st).state

/-- The cache state after `n` successive `write_disk_cache` calls. -/
def save_iter (env : Env) : Nat → CacheState → CacheState
  | 0, st => st
  | n + 1, st => save_iter env n (save_state env st)

/-- Fixture: a populated non-default-language cache. -/
def stC4 : CacheState := { language := "fr", page := some pageA, json := some feedA }

/-- C4 (code bug): with both snapshot files missing, `read_disk_cache`
keeps the cached document and feed and reports the caught-IOError
condition, but the language tag has already been reset to `""` (it is
cleared before the `try` block), so the cache state is NOT left exactly
as it was, contradicting the "leave the globals as we found them"
intent. -/
theorem read_disk_cache_clobbers_language :
    read_disk_cache none none stC4
        = ({ language := "", page := some pageA, json := some feedA }, ReadResult.ioError)
      ∧ ({ language := "", page := some pageA, json := some feedA } : CacheState) ≠ stC4 :=
  ⟨rfl, by decide⟩

/-- C10: when both files are readable but the document holds no comment
starting with `LANGUAGE=`, the call ends in the uncaught (non-IOError)
error path — not the "cache unavailable" report — with the cache already
partially mutated: feed and document replaced and the language reset to
the empty string. -/
theorem read_disk_cache_missing_marker (st : CacheState) (j : Feed) (p : Page)
    (h : p.headComments.find? is_language_comment = none) :
    read_disk_cache (some j) (some p) st
      = ({ language := "", page := some p, json := some j }, ReadResult.uncaughtError) := by
  simp [read_disk_cache, h]

/-- Witness for C10: a page whose only head comment is not a language
marker. -/
def noMarkerPage : Page := { headComments := ["generated page"], columns := [] }

theorem read_disk_cache_missing_marker_witness :
    (noMarkerPage.headComments.find? is_language_comment = none)
    ∧ read_disk_cache (some feedB) (some noMarkerPage) stC4
        = ({ language := "", page := some noMarkerPage, json := some feedB },
            ReadResult.uncaughtError) :=
  ⟨by decide, read_disk_cache_missing_marker stC4 feedB noMarkerPage (by decide)⟩

/-- Helper: on a populated cache, one save issues no fetch and only
appends the marker comment to the cached page. -/
theorem save_state_eq (env : Env) (lang : String) (p : Page) (j : Feed) :
    save_state env { language := lang, page := some p, json := some j }
      = { language := lang,
          page := some { p with headComments := p.headComments ++ ["LANGUAGE=" ++ lang] },
          json := some j } := rfl

/-- Helper: `n` saves on a populated cache append `n` copies of the
marker comment. -/
theorem save_iter_eq (env : Env) :
    ∀ (n : Nat) (lang : String) (p : Page) (j : Feed),
      save_iter env n { language := lang, page := some p, json := some j }
        = { language := lang,
            page := some { p with headComments :=
              p.headComments ++ List.replicate n ("LANGUAGE=" ++ lang) },
            json := some j } := by
  intro n
  induction n with
  | zero =>
    intro lang p j
    simp [save_iter]
  | succ m ih =>
    intro lang p j
    show save_iter env m (save_state env { language := lang, page := some p, json := some j })
      = _
    rw [save_state_eq, ih]
    simp [List.replicate_succ, List.append_assoc]

/-- C9: saving is not side-effect free: on a cache holding a document and
a feed, every `write_disk_cache` call appends a fresh `LANGUAGE=<tag>`
comment to the in-memory cached document's head (and that mutated
document is what gets serialised), and `n` successive saves leave `n`
accumulated marker comments in the cached document. -/
theorem write_disk_cache_accumulates_markers (env : Env) (st : CacheState)
    (p : Page) (j : Feed) (n : Nat) (hp : st.page = some p) (hj : st.json = some j) :
    (write_disk_cache env st).pageFile
        = { p with headComments := p.headComments ++ ["LANGUAGE=" ++ st.language] }
      ∧ (write_disk_cache env st).state
          = { st with page := some { p with headComments :=
              p.headComments ++ ["LANGUAGE=" ++ st.language] } }
      ∧ save_iter env n st
          = { language := st.language,
              page := some { p with headComments :=
                p.headComments ++ List.replicate n ("LANGUAGE=" ++ st.language) },
              json := some j } := by
  obtain ⟨lang, pg, js⟩ := st
  cases hp
  cases hj
  exact ⟨rfl, rfl, save_iter_eq env n lang p j⟩

/-- Witness for C9 at the populated fixture cache, two saves. -/
theorem write_disk_cache_accumulates_markers_witness :
    (stC4.page = some pageA ∧ stC4.json = some feedA)
    ∧ ((write_disk_cache envAB stC4).pageFile
          = { pageA with headComments := pageA.headComments ++ ["LANGUAGE=" ++ stC4.language] }
        ∧ (write_disk_cache envAB stC4).state
            = { stC4 with page := some { pageA with headComments :=
                pageA.headComments ++ ["LANGUAGE=" ++ stC4.language] } }
        ∧ save_iter envAB 2 stC4
            = { language := stC4.language,
                page := some { pageA with headComments :=
                  pageA.headComments ++ List.replicate 2 ("LANGUAGE=" ++ stC4.language) },
                json := some feedA }) :=
  ⟨⟨rfl, rfl⟩, write_disk_cache_accumulates_markers envAB stC4 pageA feedA 2 rfl rfl⟩

/-- Helper: splitting the marker prefix peels off the literal
`LANGUAGE` field. -/
theorem splitChar_marker (l : List Char) :
    splitChar '=' ("LANGUAGE=".data ++ l) = "LANGUAGE".data :: splitChar '=' l := rfl

/-- Helper: splitting a list free of the separator returns it whole. -/
theorem splitChar_no_sep (c : Char) :
    ∀ l : List Char, l.contains c = false → splitChar c l = [l] := by
  intro l
  induction l with
  | nil => intro _; rfl
  | cons x xs ih =>
    intro h
    simp only [List.contains_cons, Bool.or_eq_false_iff] at h
    obtain ⟨h1, h2⟩ := h
    have hx : (x == c) = false := by
      rw [beq_eq_false_iff_ne] at h1 ⊢
      exact fun he => h1 he.symm
    simp [splitChar, hx, ih h2]

/-- Helper: extracting the language back out of a marker comment, for a
tag free of `=`. -/
theorem comment_language_marker (lang : String) (h : lang.data.contains '=' = false) :
    comment_language ("LANGUAGE=" ++ lang) = lang := by
  unfold comment_language
  rw [String.data_append, splitChar_marker, splitChar_no_sep '=' lang.data h]
  rfl

/-- Helper: a marker comment satisfies the prefix test of
`read_disk_cache`. -/
theorem is_language_comment_marker (lang : String) :
    is_language_comment ("LANGUAGE=" ++ lang) = true := by
  unfold is_language_comment
  rw [String.data_append, List.take_left' (show ("LANGUAGE=".data).length = 9 from rfl)]
  simp

/-- C3 (amended): on a cache holding a document with no pre-existing
`LANGUAGE=` comment and a feed, for a language tag containing no `=`,
saving and then loading into a fresh cache reproduces the saved feed and
the saved document (the cached document as the save serialised it,
marker included) and restores the language tag active at save time. -/
theorem write_read_round_trip (env : Env) (st : CacheState) (p : Page) (j : Feed)
    (hp : st.page = some p) (hj : st.json = some j)
    (hc : p.headComments.find? is_language_comment = none)
    (hl : st.language.data.contains '=' = false) :
    read_disk_cache (some (write_disk_cache env st).feedFile)
        (some (write_disk_cache env st).pageFile) fresh_cache
      = ({ language := st.language,
           page := some (write_disk_cache env st).pageFile,
           json := some j }, ReadResult.ok) := by
  obtain ⟨lang, pg, js⟩ := st
  cases hp
  cases hj
  have hw1 : (write_disk_cache env { language := lang, page := some p, json := some j }).feedFile
      = j := rfl
  have hw2 : (write_disk_cache env { language := lang, page := some p, json := some j }).pageFile
      = { p with headComments := p.headComments ++ ["LANGUAGE=" ++ lang] } := rfl
  rw [hw1, hw2]
  have hf : (p.headComments ++ ["LANGUAGE=" ++ lang]).find? is_language_comment
      = some ("LANGUAGE=" ++ lang) := by
    rw [List.find?_append, hc]
    simp [List.find?_cons_of_pos _ (is_language_comment_marker lang)]
  simp only [read_disk_cache, hf, comment_language_marker lang hl, fresh_cache]

/-- Witness for the amended C3: a marker-free document, the feed fixture
and language "fr" round-trip exactly. -/
def stW : CacheState := { language := "fr", page := some pageA, json := some feedB }

theorem write_read_round_trip_witness :
    (stW.page = some pageA ∧ stW.json = some feedB
      ∧ pageA.headComments.find? is_language_comment = none
      ∧ stW.language.data.contains '=' = false)
    ∧ read_disk_cache (some (write_disk_cache envAB stW).feedFile)
        (some (write_disk_cache envAB stW).pageFile) fresh_cache
      = ({ language := stW.language,
           page := some (write_disk_cache envAB stW).pageFile,
           json := some feedB }, ReadResult.ok) :=
  ⟨⟨rfl, rfl, rfl, by decide⟩,
    write_read_round_trip envAB stW pageA feedB rfl rfl rfl (by decide)⟩

/-- C3 as stated is false: if the cached document already carries an older
`LANGUAGE=de` comment (e.g. from an earlier snapshot load), saving under
"fr" appends a second marker, but loading reads the FIRST marker and
restores "de", not the language active at save time. -/
def stalePage : Page := { headComments := ["LANGUAGE=de"], columns := [] }

def staleSt : CacheState :=
  { language := "fr", page := some stalePage, json := some feedB }

theorem round_trip_stale_marker_counterexample :
    staleSt.page ≠ none ∧ staleSt.json ≠ none
      ∧ (read_disk_cache (some (write_disk_cache envAB staleSt).feedFile)
          (some (write_disk_cache envAB staleSt).pageFile) fresh_cache).1.language = "de"
      ∧ staleSt.language = "fr"
      ∧ (read_disk_cache (some (write_disk_cache envAB staleSt).feedFile)
          (some (write_disk_cache envAB staleSt).pageFile) fresh_cache).1.language
        ≠ staleSt.language := by
  refine ⟨?_, ?_, ?_, ?_, ?_⟩ <;> decide
